import Mathlib

/-!
Verification development for the `cargo-xwinbuild` tool (source file
`src/build.rs`).  The Rust code is shallowly embedded: the option struct
`Build` becomes a Lean structure, the command construction
(`Build::build_command`) becomes a pure function from the options and an
explicit environment (`World`) to an outcome record holding the argument
vector, the environment-variable overlay, the trace of filesystem/network
effects, the final result, and the updated world.  The provisioning pipeline
(`Build::setup_msvc_crt`) is embedded the same way.
-/

namespace XwinBuild

/-- Boolean prefix test on character lists. -/
def charsHavePre : List Char → List Char → Bool
  | [], _ => true
  | _ :: _, [] => false
  | a :: as, b :: bs => a == b && charsHavePre as bs

/-- Boolean test for `pat` occurring inside `l`. -/
def charsContain (pat : List Char) : List Char → Bool
  | [] => charsHavePre pat []
  | c :: cs => charsHavePre pat (c :: cs) || charsContain pat cs

/-- Substring test, modelling Rust's `str::contains(&str)`. -/
def strContains (s pat : String) : Bool :=
  charsContain pat.toList s.toList

/-- Suffix test on strings, via the underlying character lists. -/
def hasSuffix (s suf : String) : Bool :=
  charsHavePre suf.toList.reverse s.toList.reverse

/-- Modelling Rust's `str::to_uppercase` (ASCII-adequate for target triples). -/
def rustToUppercase (s : String) : String :=
  String.mk (s.data.map Char.toUpper)

/-- Modelling Rust's `str::to_lowercase` (ASCII-adequate for target triples). -/
def rustToLowercase (s : String) : String :=
  String.mk (s.data.map Char.toLower)

/-- Modelling Rust's `str::replace('-', "_")`. -/
def replaceDash (s : String) : String :=
  String.mk (s.data.map (fun c => if c = '-' then '_' else c))

/-- The `env_target` computation of `build_command`:
`target.to_uppercase().replace('-', "_")`. -/
def envTarget (t : String) : String :=
  replaceDash (rustToUppercase t)

/-- Modelling `target.split_once('-').map(|(x, _)| x)`: the part of the triple
before the first `-`, or `none` when the triple holds no `-` at all. -/
def tripleArch (t : String) : Option String :=
  if t.toList.contains '-' then
    some (String.mk (t.toList.takeWhile (fun c => c ≠ '-')))
  else
    none

/-- Target CPU architectures selectable for the CRT/SDK, modelled from the
external `xwin` crate's `Arch` bitflag enum. -/
inductive Arch
  | x86
  | x86_64
  | aarch
  | aarch64
deriving DecidableEq, Repr

/-- Numeric bitflag value of an architecture (`*arch as u32` in the source). -/
def Arch.toU32 : Arch → Nat
  | .x86 => 1
  | .x86_64 => 2
  | .aarch => 4
  | .aarch64 => 8

/-- Platform variants selectable for the CRT/SDK, modelled from the external
`xwin` crate's `Variant` bitflag enum. -/
inductive Variant
  | desktop
  | onecore
  | store
  | spectre
deriving DecidableEq, Repr

/-- Numeric bitflag value of a variant (`*var as u32` in the source). -/
def Variant.toU32 : Variant → Nat
  | .desktop => 1
  | .onecore => 2
  | .store => 4
  | .spectre => 8

/-- Operating system the binary was compiled for; decides the Rust
`cfg!(target_os = ...)` conditionals. -/
inductive OS
  | linux
  | macos
  | windows
deriving DecidableEq, Repr

/-- Host CPU architecture of the compiled binary; decides the Rust
`cfg!(target_arch = ...)` conditionals in the macOS PATH step. -/
inductive HostArch
  | x86_64
  | aarch64
  | other
deriving DecidableEq, Repr

/-- The parsed option struct `Build` of `src/build.rs` (field for field;
`example` is renamed `example_` because `example` is a Lean keyword). -/
structure Build where
  quiet : Bool
  packages : List String
  workspace : Bool
  exclude : List String
  all : Bool
  jobs : Option Nat
  lib : Bool
  bin : List String
  bins : Bool
  example_ : List String
  examples : Bool
  test : List String
  tests : Bool
  bench : List String
  benches : Bool
  all_targets : Bool
  release : Bool
  profile : Option String
  features : List String
  all_features : Bool
  no_default_features : Bool
  target : Option String
  target_dir : Option String
  out_dir : Option String
  manifest_path : Option String
  ignore_rust_version : Bool
  message_format : List String
  build_plan : Bool
  unit_graph : Bool
  future_incompat_report : Bool
  verbose : Nat
  color : Option String
  frozen : Bool
  locked : Bool
  offline : Bool
  config : List String
  unstable_flags : List String
  xwin_cache_dir : Option String
  xwin_arch : List Arch
  xwin_variant : List Variant
  xwin_version : String
deriving Repr

/-- A `Build` value with every flag off, as produced by parsing a bare
invocation: booleans false, lists empty, scalars absent, and the clap
defaults for the hidden xwin options (`x86_64,aarch64`, `desktop`, `16`). -/
def defaultBuild : Build where
  quiet := false
  packages := []
  workspace := false
  exclude := []
  all := false
  jobs := none
  lib := false
  bin := []
  bins := false
  example_ := []
  examples := false
  test := []
  tests := false
  bench := []
  benches := false
  all_targets := false
  release := false
  profile := none
  features := []
  all_features := false
  no_default_features := false
  target := none
  target_dir := none
  out_dir := none
  manifest_path := none
  ignore_rust_version := false
  message_format := []
  build_plan := false
  unit_graph := false
  future_incompat_report := false
  verbose := 0
  color := none
  frozen := false
  locked := false
  offline := false
  config := []
  unstable_flags := []
  xwin_cache_dir := none
  xwin_arch := [Arch.x86_64, Arch.aarch64]
  xwin_variant := [Variant.desktop]
  xwin_version := "16"

/-- The external state `build_command` and `setup_msvc_crt` interact with:
the platform cache directory (`dirs::cache_dir()`), the current working
directory, whether the `DONE` marker file exists in the resolved cache
directory, whether the manifest fetch / package pruning / extraction engine
succeed, whether the transient `dl`/`unpack` directories exist, and the
`PATH` environment variable. -/
structure World where
  platformCacheDir : Option String
  cwd : String
  doneMark : Bool
  fetchOk : Bool
  pruneOk : Bool
  executeOk : Bool
  dlExists : Bool
  unpackExists : Bool
  pathVar : Option String
deriving DecidableEq, Repr

/-- The `xwin::SplatConfig` record handed to the extraction engine (the
source field `preserve_ms_arch_no…` is rendered `preserve_ms_arch_naming`
here). -/
structure SplatConfig where
  include_debug_libs : Bool
  include_debug_symbols : Bool
  enable_symlinks : Bool
  preserve_ms_arch_naming : Bool
  copy : Bool
  output : String
deriving DecidableEq, Repr

/-- Filesystem/network effects performed by the embedded code, recorded in
program order. -/
inductive Effect
  | createDirAll (dir : String)
  | ctxCreate (temp : Bool)
  | fetchManifest (version : String) (channel : String)
  | pruneList (arches : Nat) (variants : Nat)
  | splat (cfg : SplatConfig) (arches : Nat) (variants : Nat)
  | writeMarker (file : String)
  | removeDirAll (dir : String)
deriving DecidableEq, Repr

/-- The splat configuration built at lines 419-426 of `src/build.rs`:
debug libraries and symbols excluded, symlinks enabled except on macOS,
Microsoft architecture notation not preserved, no copy step, output
in-place in the cache directory. -/
def splatConfig (os : OS) (cacheDir : String) : SplatConfig where
  include_debug_libs := false
  include_debug_symbols := false
  enable_symlinks := match os with | .macos => false | _ => true
  preserve_ms_arch_naming := false
  copy := false
  output := cacheDir

/-- Name of this cargo package (`env!("CARGO_PKG_NAME")`). -/
def cargoPkgName : String := "cargo-xwinbuild"

/-- Outcome of a `setup_msvc_crt` invocation: the result, the effect trace,
and the updated world. -/
structure SetupOutcome where
  result : Except String Unit
  effects : List Effect
  world : World
deriving Repr

/-- Embedding of `Build::setup_msvc_crt`.  Checks the `DONE` marker first and
returns immediately when present; otherwise creates a work context (a
temporary one unless an explicit cache directory was given), loads the
manifest (`load_manifest`, covering both the channel manifest and the package
manifest download), OR-folds the architecture and variant bitmasks, prunes
the package list, invokes the extraction engine with `splatConfig`, writes
the `DONE` marker and best-effort deletes the `dl`/`unpack` scratch
directories (deletion modelled as succeeding; the source swallows failures). -/
def setup_msvc_crt (b : Build) (os : OS) (cacheDir : String) (w : World) :
    SetupOutcome :=
  if w.doneMark then
    { result := Except.ok (), effects := [], world := w }
  else
    let ctxEff := Effect.ctxCreate b.xwin_cache_dir.isNone
    let fetchEff := Effect.fetchManifest b.xwin_version "release"
    if ¬ w.fetchOk then
      { result := Except.error "failed to fetch manifest"
        effects := [ctxEff, fetchEff]
        world := w }
    else
      let arches := b.xwin_arch.foldl (fun acc a => acc ||| a.toU32) 0
      let variants := b.xwin_variant.foldl (fun acc v => acc ||| v.toU32) 0
      let pruneEff := Effect.pruneList arches variants
      if ¬ w.pruneOk then
        { result := Except.error "failed to prune package list"
          effects := [ctxEff, fetchEff, pruneEff]
          world := w }
      else
        let splatEff := Effect.splat (splatConfig os cacheDir) arches variants
        if ¬ w.executeOk then
          { result := Except.error "failed to execute splat"
            effects := [ctxEff, fetchEff, pruneEff, splatEff]
            world := w }
        else
          { result := Except.ok ()
            effects :=
              [ctxEff, fetchEff, pruneEff, splatEff,
               Effect.writeMarker (cacheDir ++ "/DONE")]
              ++ (if w.dlExists then [Effect.removeDirAll (cacheDir ++ "/dl")] else [])
              ++ (if w.unpackExists then [Effect.removeDirAll (cacheDir ++ "/unpack")] else [])
            world := { w with doneMark := true, dlExists := false, unpackExists := false } }

/-- Resolution of the xwin cache directory at lines 215-221 of
`src/build.rs`: the explicit override when given, otherwise the platform
cache directory (falling back to the current working directory) joined with
the package name and `xwin`. -/
def resolveCacheDir (b : Build) (w : World) : String :=
  match b.xwin_cache_dir with
  | some d => d
  | none =>
    (match w.platformCacheDir with
     | some c => c
     | none => w.cwd) ++ "/" ++ cargoPkgName ++ "/" ++ "xwin"

/-- First part of the pure argument-vector assembly of `build_command`
(lines 228-257 of `src/build.rs`): package selection and first target
options.  Note the literal `--excude` spelling emitted for the `exclude`
field at line 238 of the source. -/
def buildArgsSelect (b : Build) : List String :=
  List.flatten
    [if b.quiet then ["--quiet"] else [],
     b.packages.flatMap (fun pkg => ["--package", pkg]),
     if b.workspace then ["--workspace"] else [],
     b.exclude.flatMap (fun item => ["--excude", item]),
     if b.all then ["--all"] else [],
     (match b.jobs with
      | some jobs => ["--jobs", toString jobs]
      | none => []),
     if b.lib then ["--lib"] else [],
     b.bin.flatMap (fun x => ["--bin", x]),
     if b.bins then ["--bins"] else [],
     b.example_.flatMap (fun x => ["--example", x])]

/-- Continuation of the argument assembly: target-kind selection and
profile/feature flags (lines 258-290 of `src/build.rs`). -/
def buildArgsTargets (b : Build) : List String :=
  List.flatten
    [if b.examples then ["--examples"] else [],
     b.test.flatMap (fun x => ["--test", x]),
     if b.tests then ["--tests"] else [],
     b.bench.flatMap (fun x => ["--bench", x]),
     if b.benches then ["--benches"] else [],
     if b.all_targets then ["--all-targets"] else [],
     if b.release then ["--release"] else [],
     (match b.profile with
      | some p => ["--profile", p]
      | none => []),
     b.features.flatMap (fun x => ["--features", x]),
     if b.all_features then ["--all-features"] else [],
     if b.no_default_features then ["--no-default-features"] else []]

/-- Continuation of the argument assembly: target triple, directories and
output options (lines 291-317 of `src/build.rs`). -/
def buildArgsPaths (b : Build) : List String :=
  List.flatten
    [(match b.target with
      | some t => ["--target", t]
      | none => []),
     (match b.target_dir with
      | some d => ["--target-dir", d]
      | none => []),
     (match b.out_dir with
      | some d => ["--out-dir", d]
      | none => []),
     (match b.manifest_path with
      | some p => ["--manifest-path", p]
      | none => []),
     if b.ignore_rust_version then ["--ignore-rust-version"] else [],
     b.message_format.flatMap (fun x => ["--message-format", x]),
     if b.build_plan then ["--build-plan"] else [],
     if b.unit_graph then ["--unit-graph"] else [],
     if b.future_incompat_report then ["--future-incompat-report"] else []]

/-- Continuation of the argument assembly: verbosity, color, lockfile
strictness and pass-through flags (lines 318-338 of `src/build.rs`). -/
def buildArgsMisc (b : Build) : List String :=
  List.flatten
    [if b.verbose > 0 then ["-" ++ String.mk (List.replicate b.verbose 'v')] else [],
     (match b.color with
      | some c => ["--color", c]
      | none => []),
     if b.frozen then ["--frozen"] else [],
     if b.locked then ["--locked"] else [],
     if b.offline then ["--offline"] else [],
     b.config.flatMap (fun x => ["--config", x]),
     b.unstable_flags.flatMap (fun x => ["-Z", x])]

/-- The complete cargo argument vector, subcommand first, in the exact
emission order of lines 224-338 of `src/build.rs`. -/
def buildArgs (b : Build) (subcommand : String) : List String :=
  subcommand :: (buildArgsSelect b ++ buildArgsTargets b
    ++ buildArgsPaths b ++ buildArgsMisc b)

/-- The `CL_FLAGS` value built at lines 358-361 of `src/build.rs`. -/
def clFlags (dir : String) : String :=
  "-fuse-ld=lld-link /imsvc" ++ dir ++ "/crt/include /imsvc" ++ dir
    ++ "/sdk/include/ucrt /imsvc" ++ dir ++ "/sdk/include/um /imsvc" ++ dir
    ++ "/sdk/include/shared"

/-- The `CARGO_TARGET_*_RUSTFLAGS` value built at lines 370-374. -/
def rustFlags (dir arch : String) : String :=
  "-Lnative=" ++ dir ++ "/crt/lib/" ++ arch ++ " -Lnative=" ++ dir
    ++ "/sdk/lib/um/" ++ arch ++ " -Lnative=" ++ dir ++ "/sdk/lib/ucrt/" ++ arch

/-- The ten environment variables set at lines 344-364 of `src/build.rs`,
before the target triple is split: compiler, C++ compiler and archiver
(global and architecture-suffixed), linker (architecture-suffixed), and the
compiler-flag variables.  The suffix of `CC_`, `CXX_`, `CFLAGS_` and
`CXXFLAGS_` is the lowercase form of `env_target`; `AR_` and the linker keep
`env_target` itself. -/
def msvcEnvHead (target dir : String) : List (String × String) :=
  let et := envTarget target
  let cl := clFlags dir
  let cc := "clang-cl --target=" ++ target
  [("TARGET_CC", cc),
   ("TARGET_CXX", cc),
   ("CC_" ++ rustToLowercase et, cc),
   ("CXX_" ++ rustToLowercase et, cc),
   ("TARGET_AR", "llvm-lib"),
   ("AR_" ++ et, "llvm-lib"),
   ("CARGO_TARGET_" ++ et ++ "_LINKER", "lld-link"),
   ("CL_FLAGS", cl),
   ("CFLAGS_" ++ rustToLowercase et, cl),
   ("CXXFLAGS_" ++ rustToLowercase et, cl)]

/-- The macOS-only PATH step at lines 377-388: when the binary was built for
macOS and `PATH` is readable, append the Homebrew/LLVM binary directory for
the host architecture unless already present, and set `PATH` on the child. -/
def macosPathEnv (os : OS) (harch : HostArch) (pathVar : Option String) :
    List (String × String) :=
  match os with
  | .macos =>
    match pathVar with
    | some path =>
      let newPath :=
        match harch with
        | .x86_64 =>
          if strContains path "/usr/local/opt/llvm/bin" then path
          else path ++ ":/usr/local/opt/llvm/bin"
        | .aarch64 =>
          if strContains path "/opt/homebrew/opt/llvm/bin" then path
          else path ++ ":/opt/homebrew/opt/llvm/bin"
        | .other => path
      [("PATH", newPath)]
    | none => []
  | _ => []

/-- Outcome of a `build_command` invocation: the spawned program, its
argument vector, the environment overlay set on the child, the effect
trace, the result, and the updated world.  On an error the fields record
what had been assembled before the error was raised. -/
structure CmdOutcome where
  program : String
  args : List String
  env : List (String × String)
  effects : List Effect
  result : Except String Unit
  world : World
deriving Repr

/-- Embedding of `Build::build_command` (lines 214-393 of `src/build.rs`):
resolve the cache directory and create it, assemble the cargo argument
vector, and — only when the target triple holds the substring `msvc` — run
`setup_msvc_crt`, set the toolchain environment variables, split the triple
to build the library search paths (failing with `invalid target triple`
when the triple holds no `-`), and on macOS adjust `PATH`. -/
def build_command (b : Build) (subcommand : String) (os : OS)
    (harch : HostArch) (w : World) : CmdOutcome :=
  let cacheDir := resolveCacheDir b w
  let dirEff := Effect.createDirAll cacheDir
  let args := buildArgs b subcommand
  match b.target with
  | none =>
    { program := "cargo", args := args, env := [], effects := [dirEff]
      result := Except.ok (), world := w }
  | some target =>
    if strContains target "msvc" then
      let s := setup_msvc_crt b os cacheDir w
      match s.result with
      | Except.error e =>
        { program := "cargo", args := args, env := []
          effects := [dirEff] ++ s.effects
          result := Except.error e, world := s.world }
      | Except.ok _ =>
        let envHead := msvcEnvHead target cacheDir
        match tripleArch target with
        | none =>
          { program := "cargo", args := args, env := envHead
            effects := [dirEff] ++ s.effects
            result := Except.error "invalid target triple", world := s.world }
        | some arch =>
          let et := envTarget target
          { program := "cargo", args := args
            env := envHead
              ++ [("CARGO_TARGET_" ++ et ++ "_RUSTFLAGS", rustFlags cacheDir arch)]
              ++ macosPathEnv os harch w.pathVar
            effects := [dirEff] ++ s.effects
            result := Except.ok (), world := s.world }
    else
      { program := "cargo", args := args, env := [], effects := [dirEff]
        result := Except.ok (), world := w }

/-- Exit status of the spawned cargo process (`std::process::ExitStatus`):
whether it counts as success, and its exit code when one is available
(`none` models termination by signal). -/
structure ExitStatus where
  success : Bool
  code : Option Int
deriving DecidableEq, Repr

/-- What `Build::execute` does after waiting on the child: return normally,
or terminate the whole program with `process::exit code`. -/
inductive ExecOutcome
  | finished
  | exit (code : Int)
deriving DecidableEq, Repr

/-- Embedding of `Build::execute` (lines 203-211 of `src/build.rs`): build
the `build` command, spawn it (`none` models a spawn failure), wait, and on
an unsuccessful status terminate with the child's exit code, defaulting to 1
when no code is available; otherwise return `Ok(())`. -/
def execute (b : Build) (os : OS) (harch : HostArch) (w : World)
    (spawn : Option ExitStatus) : Except String ExecOutcome :=
  match (build_command b "build" os harch w).result with
  | Except.error e => Except.error e
  | Except.ok _ =>
    match spawn with
    | none => Except.error "Failed to run cargo build"
    | some st =>
      if st.success then Except.ok ExecOutcome.finished
      else Except.ok (ExecOutcome.exit (st.code.getD 1))

/-! Concrete fixtures used by the theorems below. -/

/-- A world whose cache directory is already provisioned (`DONE` exists). -/
def w0 : World where
  platformCacheDir := some "/pc"
  cwd := "/cwd"
  doneMark := true
  fetchOk := true
  pruneOk := true
  executeOk := true
  dlExists := false
  unpackExists := false
  pathVar := none

/-- Options selecting an msvc target with no explicit cache override. -/
def b6 : Build := { defaultBuild with target := some "x86_64-pc-windows-msvc" }

/-- Two worlds that differ only in the platform cache directory. -/
def w6a : World := { w0 with platformCacheDir := some "/c1" }

/-- Second world for the determinism counterexample. -/
def w6b : World := { w0 with platformCacheDir := some "/c2" }

/-- Options selecting the degenerate msvc target triple `msvc`. -/
def b10 : Build :=
  { defaultBuild with target := some "msvc", xwin_cache_dir := some "/cache" }

/-- An unprovisioned world in which every provisioning step succeeds. -/
def w10 : World where
  platformCacheDir := some "/pc"
  cwd := "/cwd"
  doneMark := false
  fetchOk := true
  pruneOk := true
  executeOk := true
  dlExists := true
  unpackExists := true
  pathVar := some "/usr/bin"

/-- Options selecting the example triple of the spec. -/
def b2 : Build := { defaultBuild with target := some "aarch64-pc-windows-msvc" }

/-- Options with an explicit cache-directory override. -/
def b5 : Build := { defaultBuild with xwin_cache_dir := some "/custom" }

/-- Options selecting an ordinary non-msvc target triple. -/
def b4 : Build := { defaultBuild with target := some "x86_64-unknown-linux-gnu" }

/-- A list is a prefix of itself followed by anything. -/
theorem charsHavePre_append (l m : List Char) : charsHavePre l (l ++ m) = true := by
  induction l with
  | nil => rfl
  | cons a as ih => simp [charsHavePre, ih]

/-- Appending a string leaves it as a suffix of the result. -/
theorem hasSuffix_append (x y : String) : hasSuffix (x ++ y) y = true := by
  unfold hasSuffix
  show charsHavePre y.data.reverse (x ++ y).data.reverse = true
  rw [String.data_append, List.reverse_append]
  exact charsHavePre_append y.data.reverse x.data.reverse

/-- Claim C1: the `exclude` field is declared `#[clap(long)]` (CLI flag
`--exclude`, mirroring cargo's `--exclude`), but line 238 of `src/build.rs`
emits the misspelt flag `--excude` to the child cargo process: the emitted
flag-value pair is not the underlying build tool's `--exclude` flag. -/
theorem C1_exclude_flag_typo :
    buildArgs { defaultBuild with exclude := ["foo"] } "build"
      = ["build", "--excude", "foo"] ∧
    "--exclude" ∉ buildArgs { defaultBuild with exclude := ["foo"] } "build" := by
  exact ⟨rfl, by decide⟩

/-- Claim C3: when the completion marker `DONE` already exists at call time,
`setup_msvc_crt` returns success immediately with an empty effect trace (no
manifest fetch, no pruning, no splatting) and an unchanged world; moreover
after any successful run the marker exists, so a second invocation against
the same cache directory performs zero network/extraction effects. -/
theorem C3_already_done_idempotent (b : Build) (os : OS) (dir : String)
    (w w' : World) (h : w.doneMark = true)
    (h' : (setup_msvc_crt b os dir w').result = Except.ok ()) :
    setup_msvc_crt b os dir w = { result := Except.ok (), effects := [], world := w } ∧
    setup_msvc_crt b os dir ((setup_msvc_crt b os dir w').world) =
      { result := Except.ok (), effects := []
        world := (setup_msvc_crt b os dir w').world } := by
  have done : ∀ v : World, v.doneMark = true →
      setup_msvc_crt b os dir v = { result := Except.ok (), effects := [], world := v } := by
    intro v hv
    unfold setup_msvc_crt
    simp [hv]
  have afterOk : (setup_msvc_crt b os dir w').world.doneMark = true := by
    by_cases h1 : w'.doneMark
    · unfold setup_msvc_crt
      simp [h1]
    · unfold setup_msvc_crt at h' ⊢
      by_cases h2 : w'.fetchOk
      · by_cases h3 : w'.pruneOk
        · by_cases h4 : w'.executeOk
          · simp [h1, h2, h3, h4]
          · simp [h1, h2, h3, h4] at h'
        · simp [h1, h2, h3] at h'
      · simp [h1, h2] at h'
  exact ⟨done w h, done _ afterOk⟩

/-- Witness for claim C3 at a concrete provisioned world. -/
theorem C3_already_done_idempotent_witness :
    setup_msvc_crt defaultBuild OS.linux "/d" w0
      = { result := Except.ok (), effects := [], world := w0 } ∧
    setup_msvc_crt defaultBuild OS.linux "/d"
        ((setup_msvc_crt defaultBuild OS.linux "/d" w0).world) =
      { result := Except.ok (), effects := []
        world := (setup_msvc_crt defaultBuild OS.linux "/d" w0).world } :=
  C3_already_done_idempotent defaultBuild OS.linux "/d" w0 w0 rfl rfl

/-- Claim C6 counterexample: with no explicit cache override and an msvc
target, the same options in two worlds that differ only in the platform
cache directory give different environment overlays, and translation
performs filesystem work (a cache-directory creation) on every call — so
`build_command` is not independent of filesystem state and not free of
I/O. -/
theorem C6_counterexample :
    (build_command b6 "build" OS.linux HostArch.other w6a).env ≠
      (build_command b6 "build" OS.linux HostArch.other w6b).env ∧
    (build_command b6 "build" OS.linux HostArch.other w6a).effects ≠ [] := by
  decide

/-- Claim C6 amended: the argument vector is a pure function of the options
alone — `build_command` yields the same argument vector in any two worlds,
on any OS/host, namely `buildArgs` — even though the environment overlay
and effect trace may depend on the world. -/
theorem C6_args_deterministic (b : Build) (sub : String) (os os' : OS)
    (ha ha' : HostArch) (w w' : World) :
    (build_command b sub os ha w).args = buildArgs b sub ∧
    (build_command b sub os' ha' w').args = buildArgs b sub := by
  have argsEq : ∀ (o : OS) (hh : HostArch) (v : World),
      (build_command b sub o hh v).args = buildArgs b sub := by
    intro o hh v
    unfold build_command
    cases b.target with
    | none => rfl
    | some t =>
      cases hm : strContains t "msvc" with
      | false => simp [hm]
      | true =>
        simp only [hm, if_true]
        cases (setup_msvc_crt b o (resolveCacheDir b v) v).result with
        | error e => rfl
        | ok u =>
          cases tripleArch t with
          | none => rfl
          | some a => rfl
  exact ⟨argsEq os ha w, argsEq os' ha' w'⟩

/-- Claim C7 counterexample: the target triple `foo` cannot be split at a
`-` separator, yet `build_command` succeeds — no InvalidTriple error is
raised for separator-less triples that lack the `msvc` marker. -/
theorem C7_counterexample :
    (build_command { defaultBuild with target := some "foo" } "build"
        OS.linux HostArch.other w0).result = Except.ok () := by
  rfl

/-- Claim C7 amended: the invalid-triple validation applies only to targets
containing `msvc`.  With provisioning satisfied by an existing completion
marker, `build_command` fails — and fails with exactly the error
`invalid target triple` — precisely when the supplied target contains
`msvc` and has no `-` separator; every other option value passes with no
validation at this layer. -/
theorem C7_invalid_triple (b : Build) (sub : String) (os : OS)
    (harch : HostArch) (w : World) (hd : w.doneMark = true) :
    (build_command b sub os harch w).result =
      (match b.target with
       | none => Except.ok ()
       | some t =>
         if strContains t "msvc" then
           (match tripleArch t with
            | none => Except.error "invalid target triple"
            | some _ => Except.ok ())
         else Except.ok ()) := by
  unfold build_command
  cases b.target with
  | none => rfl
  | some t =>
    cases hm : strContains t "msvc" with
    | false => simp [hm]
    | true =>
      have hsetup : setup_msvc_crt b os (resolveCacheDir b w) w
          = { result := Except.ok (), effects := [], world := w } := by
        unfold setup_msvc_crt
        simp [hd]
      simp only [hm, if_true, hsetup]
      cases tripleArch t with
      | none => rfl
      | some a => rfl

/-- Witness for claim C7 at the concrete triple `msvc`. -/
theorem C7_invalid_triple_witness :
    w0.doneMark = true ∧
    (build_command { defaultBuild with target := some "msvc" } "build"
        OS.linux HostArch.other w0).result = Except.error "invalid target triple" := by
  refine ⟨rfl, ?_⟩
  have h := C7_invalid_triple { defaultBuild with target := some "msvc" } "build"
    OS.linux HostArch.other w0 rfl
  rw [h]
  rfl

/-- Claim C8: after a successful command construction, `execute` propagates
an unsuccessful child exit status as the program's own exit code, defaults
the code to 1 when none is available (termination by signal), and returns
success when the child succeeds. -/
theorem C8_exit_code_propagation (b : Build) (os : OS) (harch : HostArch)
    (w : World) (st : ExitStatus) (c : Int)
    (hb : (build_command b "build" os harch w).result = Except.ok ()) :
    (st.success = false → st.code = some c →
      execute b os harch w (some st) = Except.ok (ExecOutcome.exit c)) ∧
    (st.success = false → st.code = none →
      execute b os harch w (some st) = Except.ok (ExecOutcome.exit 1)) ∧
    (st.success = true →
      execute b os harch w (some st) = Except.ok ExecOutcome.finished) := by
  unfold execute
  rw [hb]
  refine ⟨?_, ?_, ?_⟩
  · intro h1 h2
    simp [h1, h2]
  · intro h1 h2
    simp [h1, h2]
  · intro h1
    simp [h1]

/-- Witness for claim C8: a child exiting with code 3 makes the program
exit with code 3. -/
theorem C8_exit_code_propagation_witness :
    execute defaultBuild OS.linux HostArch.other w0
        (some { success := false, code := some 3 }) = Except.ok (ExecOutcome.exit 3) :=
  (C8_exit_code_propagation defaultBuild OS.linux HostArch.other w0
    { success := false, code := some 3 } 3 rfl).1 rfl rfl

/-- Claim C10: for the degenerate triple `msvc` (contains the marker but no
`-` separator), `build_command` is not atomic on failure: the whole
provisioning pipeline runs to completion (cache-directory creation, context
creation, manifest fetch, pruning, splat, completion-marker write, scratch
cleanup — afterwards the marker exists), and the global `TARGET_CC` /
`TARGET_CXX` / `TARGET_AR`, suffixed compiler/archiver/linker, and flag
variables are all set on the command before the `invalid target triple`
error is raised; the arch-suffixed rustflags variable is the one skipped
step (`PATH` is likewise untouched). -/
theorem C10_not_atomic (os : OS) (harch : HostArch) :
    (build_command b10 "build" os harch w10).result
      = Except.error "invalid target triple" ∧
    (build_command b10 "build" os harch w10).effects =
      [Effect.createDirAll "/cache", Effect.ctxCreate false,
       Effect.fetchManifest "16" "release", Effect.pruneList 10 1,
       Effect.splat (splatConfig os "/cache") 10 1,
       Effect.writeMarker "/cache/DONE",
       Effect.removeDirAll "/cache/dl", Effect.removeDirAll "/cache/unpack"] ∧
    (build_command b10 "build" os harch w10).env =
      [("TARGET_CC", "clang-cl --target=msvc"),
       ("TARGET_CXX", "clang-cl --target=msvc"),
       ("CC_msvc", "clang-cl --target=msvc"),
       ("CXX_msvc", "clang-cl --target=msvc"),
       ("TARGET_AR", "llvm-lib"),
       ("AR_MSVC", "llvm-lib"),
       ("CARGO_TARGET_MSVC_LINKER", "lld-link"),
       ("CL_FLAGS", clFlags "/cache"),
       ("CFLAGS_msvc", clFlags "/cache"),
       ("CXXFLAGS_msvc", clFlags "/cache")] ∧
    ((build_command b10 "build" os harch w10).env.map Prod.fst).contains
      "CARGO_TARGET_MSVC_RUSTFLAGS" = false ∧
    ((build_command b10 "build" os harch w10).env.map Prod.fst).contains
      "PATH" = false ∧
    (build_command b10 "build" os harch w10).world.doneMark = true := by
  exact ⟨rfl, rfl, rfl, rfl, rfl, rfl⟩

/-- Claim C2 counterexample: for the triple `aarch64-pc-windows-msvc` the
compiler variable written by the orchestration is `CC_aarch64_pc_windows_msvc`
(lowercase suffix, from `env_target.to_lowercase()` at line 347), not
`CC_AARCH64_PC_WINDOWS_MSVC`: not every architecture-suffixed variable uses
the uppercase suffix. -/
theorem C2_counterexample :
    ((build_command b2 "build" OS.linux HostArch.other w0).env.map Prod.fst).contains
      "CC_aarch64_pc_windows_msvc" = true ∧
    ((build_command b2 "build" OS.linux HostArch.other w0).env.map Prod.fst).contains
      "CC_AARCH64_PC_WINDOWS_MSVC" = false := by
  exact ⟨rfl, rfl⟩

/-- Claim C2 amended: for an msvc target triple, the archiver (`AR_`),
linker (`CARGO_TARGET_…_LINKER`) and rustflags (`CARGO_TARGET_…_RUSTFLAGS`)
variables are suffixed with `env_target` — the triple uppercased with `-`
replaced by `_` — while the compiler (`CC_`, `CXX_`) and compiler-flags
(`CFLAGS_`, `CXXFLAGS_`) variables are suffixed with the lowercase form of
that same string; the key list below is the complete overlay (on a non-mac
host) in emission order. -/
theorem C2_env_suffix_cases (b : Build) (sub t a : String) (harch : HostArch)
    (w : World) (ht : b.target = some t) (hm : strContains t "msvc" = true)
    (hd : w.doneMark = true) (ha : tripleArch t = some a) :
    (build_command b sub OS.linux harch w).env.map Prod.fst =
      ["TARGET_CC", "TARGET_CXX",
       "CC_" ++ rustToLowercase (envTarget t),
       "CXX_" ++ rustToLowercase (envTarget t),
       "TARGET_AR",
       "AR_" ++ envTarget t,
       "CARGO_TARGET_" ++ envTarget t ++ "_LINKER",
       "CL_FLAGS",
       "CFLAGS_" ++ rustToLowercase (envTarget t),
       "CXXFLAGS_" ++ rustToLowercase (envTarget t),
       "CARGO_TARGET_" ++ envTarget t ++ "_RUSTFLAGS"] := by
  unfold build_command
  rw [ht]
  have hsetup : setup_msvc_crt b OS.linux (resolveCacheDir b w) w
      = { result := Except.ok (), effects := [], world := w } := by
    unfold setup_msvc_crt
    simp [hd]
  simp [hm, hsetup, ha, msvcEnvHead, macosPathEnv]

/-- Witness for claim C2 at the triple `aarch64-pc-windows-msvc`. -/
theorem C2_env_suffix_cases_witness :
    (build_command b2 "build" OS.linux HostArch.other w0).env.map Prod.fst =
      ["TARGET_CC", "TARGET_CXX",
       "CC_aarch64_pc_windows_msvc", "CXX_aarch64_pc_windows_msvc",
       "TARGET_AR", "AR_AARCH64_PC_WINDOWS_MSVC",
       "CARGO_TARGET_AARCH64_PC_WINDOWS_MSVC_LINKER",
       "CL_FLAGS", "CFLAGS_aarch64_pc_windows_msvc",
       "CXXFLAGS_aarch64_pc_windows_msvc",
       "CARGO_TARGET_AARCH64_PC_WINDOWS_MSVC_RUSTFLAGS"] := by
  have h := C2_env_suffix_cases b2 "build" "aarch64-pc-windows-msvc" "aarch64"
    HostArch.other w0 rfl rfl rfl rfl
  rw [h]
  rfl

/-- Claim C4: when the target triple is absent or lacks the `msvc` marker
substring, `build_command` sets no environment variable on the child (the
overlay is empty, so in particular none of `TARGET_CC`, `TARGET_CXX`,
`TARGET_AR`, `CC_*`, `CXX_*`, `AR_*`, `CARGO_TARGET_*_LINKER`, `CL_FLAGS`,
`CFLAGS_*`, `CXXFLAGS_*`, `CARGO_TARGET_*_RUSTFLAGS`, `PATH`), leaves the
world unchanged and performs no provisioning effect — the only effect is
the unconditional cache-directory creation of line 222, which happens
outside the Provisioner. -/
theorem C4_no_msvc_no_env_no_provisioning (b : Build) (sub : String) (os : OS)
    (harch : HostArch) (w : World)
    (h : ∀ t, b.target = some t → strContains t "msvc" = false) :
    (build_command b sub os harch w).env = [] ∧
    (build_command b sub os harch w).effects
      = [Effect.createDirAll (resolveCacheDir b w)] ∧
    (build_command b sub os harch w).result = Except.ok () ∧
    (build_command b sub os harch w).world = w := by
  unfold build_command
  cases hb : b.target with
  | none => exact ⟨rfl, rfl, rfl, rfl⟩
  | some t =>
    have hm := h t hb
    simp [hm]

/-- Witness for claim C4 at the non-msvc triple `x86_64-unknown-linux-gnu`. -/
theorem C4_no_msvc_no_env_no_provisioning_witness :
    (build_command b4 "build" OS.linux HostArch.other w0).env = [] ∧
    (build_command b4 "build" OS.linux HostArch.other w0).effects
      = [Effect.createDirAll (resolveCacheDir b4 w0)] ∧
    (build_command b4 "build" OS.linux HostArch.other w0).result = Except.ok () ∧
    (build_command b4 "build" OS.linux HostArch.other w0).world = w0 :=
  C4_no_msvc_no_env_no_provisioning b4 "build" OS.linux HostArch.other w0
    (fun t ht => by
      have h2 : some "x86_64-unknown-linux-gnu" = some t := ht
      injection h2 with h3
      subst h3
      rfl)

/-- Claim C5 counterexample: with the explicit override `/custom`, the
resolved cache directory is `/custom` itself — the stable
`cargo-xwinbuild/xwin` path segment is not appended in the override case. -/
theorem C5_counterexample :
    resolveCacheDir b5 w0 = "/custom" ∧
    hasSuffix (resolveCacheDir b5 w0) (cargoPkgName ++ "/" ++ "xwin") = false := by
  exact ⟨rfl, rfl⟩

/-- Claim C5 amended: the cache directory created by `build_command` is
resolved in priority order — the explicit override (used as-is, with no
suffix), else the platform cache directory, else the current working
directory — and only in the two fallback cases is the resolved location
suffixed with the stable `cargo-xwinbuild/xwin` path segment. -/
theorem C5_cache_dir_resolution (b : Build) (sub : String) (os : OS)
    (harch : HostArch) (w : World) :
    (build_command b sub os harch w).effects.head?
      = some (Effect.createDirAll (resolveCacheDir b w)) ∧
    (∀ d, b.xwin_cache_dir = some d → resolveCacheDir b w = d) ∧
    (b.xwin_cache_dir = none → ∀ c, w.platformCacheDir = some c →
      resolveCacheDir b w = c ++ "/" ++ cargoPkgName ++ "/" ++ "xwin") ∧
    (b.xwin_cache_dir = none → w.platformCacheDir = none →
      resolveCacheDir b w = w.cwd ++ "/" ++ cargoPkgName ++ "/" ++ "xwin") ∧
    (b.xwin_cache_dir = none →
      hasSuffix (resolveCacheDir b w) ("/" ++ cargoPkgName ++ "/" ++ "xwin") = true) := by
  refine ⟨?_, ?_, ?_, ?_, ?_⟩
  · unfold build_command
    cases b.target with
    | none => rfl
    | some t =>
      cases hm : strContains t "msvc" with
      | false => simp [hm]
      | true =>
        simp only [hm, if_true]
        cases (setup_msvc_crt b os (resolveCacheDir b w) w).result with
        | error e => rfl
        | ok u =>
          cases tripleArch t with
          | none => rfl
          | some a => rfl
  · intro d hd
    unfold resolveCacheDir
    rw [hd]
  · intro hn c hc
    unfold resolveCacheDir
    rw [hn, hc]
  · intro hn hc
    unfold resolveCacheDir
    rw [hn, hc]
  · intro hn
    unfold resolveCacheDir
    rw [hn]
    cases hc : w.platformCacheDir with
    | none =>
      have h := hasSuffix_append w.cwd ("/" ++ cargoPkgName ++ "/" ++ "xwin")
      simpa [String.append_assoc] using h
    | some c =>
      have h := hasSuffix_append c ("/" ++ cargoPkgName ++ "/" ++ "xwin")
      simpa [String.append_assoc] using h

/-- Witness for claim C5: with no override and platform cache directory
`/pc`, the directory created is `/pc/cargo-xwinbuild/xwin`, which carries
the stable suffix. -/
theorem C5_cache_dir_resolution_witness :
    (build_command defaultBuild "build" OS.linux HostArch.other w0).effects.head?
      = some (Effect.createDirAll "/pc/cargo-xwinbuild/xwin") ∧
    resolveCacheDir defaultBuild w0 = "/pc/cargo-xwinbuild/xwin" ∧
    hasSuffix (resolveCacheDir defaultBuild w0)
      ("/" ++ cargoPkgName ++ "/" ++ "xwin") = true := by
  have h := C5_cache_dir_resolution defaultBuild "build" OS.linux HostArch.other w0
  exact ⟨h.1.trans (by rfl), (h.2.2.1 rfl "/pc" rfl).trans (by rfl), h.2.2.2.2 rfl⟩

/-- Claim C9: every invocation of the extraction engine made by
`setup_msvc_crt` uses a splat configuration that excludes debug libraries
and debug symbols, enables symlinks exactly on non-macOS hosts (on macOS
files are copied by the engine instead), does not preserve the Microsoft
architecture notation, performs no separate copy step, and writes output
in-place to the cache directory. -/
theorem C9_splat_config (b : Build) (os : OS) (dir : String) (w : World)
    (cfg : SplatConfig) (a v : Nat)
    (h : Effect.splat cfg a v ∈ (setup_msvc_crt b os dir w).effects) :
    cfg.include_debug_libs = false ∧
    cfg.include_debug_symbols = false ∧
    (cfg.enable_symlinks = true ↔ os ≠ OS.macos) ∧
    cfg.preserve_ms_arch_naming = false ∧
    cfg.copy = false ∧
    cfg.output = dir := by
  have hcfg : cfg = splatConfig os dir := by
    unfold setup_msvc_crt at h
    by_cases h1 : w.doneMark
    · simp [h1] at h
    · by_cases h2 : w.fetchOk
      · by_cases h3 : w.pruneOk
        · by_cases h4 : w.executeOk
          · simp [h1, h2, h3, h4] at h
            exact h.1
          · simp [h1, h2, h3, h4] at h
            exact h.1
        · simp [h1, h2, h3] at h
      · simp [h1, h2] at h
  subst hcfg
  refine ⟨rfl, rfl, ?_, rfl, rfl, rfl⟩
  cases os <;> simp [splatConfig]

/-- Witness for claim C9: a run on an unprovisioned world invokes the engine
with exactly this configuration. -/
theorem C9_splat_config_witness :
    (splatConfig OS.linux "/d").include_debug_libs = false ∧
    (splatConfig OS.linux "/d").include_debug_symbols = false ∧
    ((splatConfig OS.linux "/d").enable_symlinks = true ↔ OS.linux ≠ OS.macos) ∧
    (splatConfig OS.linux "/d").preserve_ms_arch_naming = false ∧
    (splatConfig OS.linux "/d").copy = false ∧
    (splatConfig OS.linux "/d").output = "/d" :=
  C9_splat_config defaultBuild OS.linux "/d" { w0 with doneMark := false }
    (splatConfig OS.linux "/d") 10 1 (by decide)

end XwinBuild
